import Mathlib

/-!
Shallow embedding of a multi-tenant quiz backend (FastAPI + SQLAlchemy).

The persistent store is modelled as a `Store` record holding the four tables
as lists in insertion order, plus the next auto-increment primary key of each
table.  Each HTTP handler of `main.py` becomes a pure function from its
request payload and the store to `Except HTTPException (response × store)`.
The password digest (`hashlib.sha256(...).hexdigest()`) is an external
collaborator and is passed in as a function parameter `sha256`.
Python `str.strip()` is modelled by `pyStrip` and `str.lower()` by
`pyLower`, both computing on the character list of the string; SQLAlchemy `filter(...).first()` over a table becomes
`List.find?` and `.all()` becomes `List.filter` (insertion order).
-/

/-! ## Data model (models.py) -/

namespace models

structure Tenant where
  id : Nat
  name : String
  display_name : String
deriving Repr, DecidableEq

structure User where
  id : Nat
  username : String
  password : String
  tenant_id : Nat
deriving Repr, DecidableEq

structure Question where
  id : Nat
  question : String
  answer : Bool
  tenant_id : Nat
deriving Repr, DecidableEq

structure QuizSubmission where
  id : Nat
  answers : List Bool
  score : Nat
  user_id : Nat
  tenant_id : Nat
deriving Repr, DecidableEq

end models

/-! ## Request payloads (Pydantic models in main.py) -/

structure QuestionCreate where
  question : String
  answer : Bool
deriving Repr, DecidableEq

structure QuizSubmission where
  username : String
  answers : List Bool
deriving Repr, DecidableEq

structure AuthRequest where
  username : String
  password : String
  tenant : String
deriving Repr, DecidableEq

structure TenantCreate where
  name : String
  display_name : String
deriving Repr, DecidableEq

/-! ## Store and error type -/

structure HTTPException where
  status_code : Nat
  detail : String
deriving Repr, DecidableEq

structure Store where
  tenants : List models.Tenant
  users : List models.User
  questions : List models.Question
  submissions : List models.QuizSubmission
  nextTenantId : Nat
  nextUserId : Nat
  nextQuestionId : Nat
  nextSubmissionId : Nat
deriving Repr, DecidableEq

/-! ## Response shapes -/

structure CreateTenantResponse where
  message : String
  tenant_id : Nat
  name : String
deriving Repr, DecidableEq

structure SignupResponse where
  message : String
  tenant : String
  username : String
deriving Repr, DecidableEq

structure StudentQuestionView where
  id : Nat
  question : String
deriving Repr, DecidableEq

structure AdminQuestionView where
  id : Nat
  question : String
  answer : Bool
deriving Repr, DecidableEq

inductive SetQuestionsResult where
  | existing : String → List AdminQuestionView → SetQuestionsResult
  | inserted : String → SetQuestionsResult
deriving Repr, DecidableEq

structure SubmitResponse where
  message : String
  username : String
  score : Nat
  total : Nat
deriving Repr, DecidableEq

/-! ## String normalization (Python str.strip / str.lower) -/

/-- The whitespace characters recognized by Python `str.strip()`
(ASCII range: space, tab, newline, carriage return, vertical tab, form feed). -/
def isPySpace (c : Char) : Bool :=
  c == ' ' || c == '\t' || c == '\n' || c == '\r' || c == Char.ofNat 11 || c == Char.ofNat 12

/-- Python `str.strip()`: remove leading and trailing whitespace. -/
def pyStrip (s : String) : String :=
  ⟨((s.data.dropWhile isPySpace).reverse.dropWhile isPySpace).reverse⟩

/-- Python `str.lower()`: lowercase every character. -/
def pyLower (s : String) : String :=
  ⟨s.data.map Char.toLower⟩

/-! ## Handlers (main.py) -/

/-- `hash_password`: runs the password through the one-way digest
(`hashlib.sha256(password.encode()).hexdigest()`), taken as parameter. -/
def hash_password (sha256 : String → String) (password : String) : String :=
  sha256 password

/-- POST /tenant/create (`create_tenant`). -/
def create_tenant (tenant : TenantCreate) (db : Store) :
    Except HTTPException (CreateTenantResponse × Store) :=
  match db.tenants.find? (fun t => pyLower t.name == pyLower (pyStrip tenant.name)) with
  | some _ => .error ⟨400, "Tenant " ++ tenant.name ++ " already exists"⟩
  | none =>
    let new_tenant : models.Tenant :=
      ⟨db.nextTenantId, pyStrip tenant.name, pyStrip tenant.display_name⟩
    .ok (⟨"Tenant created successfully", new_tenant.id, new_tenant.name⟩,
         { db with tenants := db.tenants ++ [new_tenant],
                   nextTenantId := db.nextTenantId + 1 })

/-- GET /tenant-check/{tenant_name} (`check_tenant`): the `exists` field. -/
def check_tenant (tenant_name : String) (db : Store) : Bool :=
  (db.tenants.find? (fun t => pyLower t.name == pyLower (pyStrip tenant_name))).isSome

/-- POST /signup (`signup`). -/
def signup (sha256 : String → String) (auth : AuthRequest) (db : Store) :
    Except HTTPException (SignupResponse × Store) :=
  let username := pyStrip auth.username
  match db.tenants.find? (fun t => pyLower t.name == pyLower (pyStrip auth.tenant)) with
  | none => .error ⟨404, "Tenant not found"⟩
  | some tenant =>
    match db.users.find? (fun u =>
        pyLower u.username == pyLower username && u.tenant_id == tenant.id) with
    | some _ => .error ⟨400, "Username already exists in this tenant"⟩
    | none =>
      let new_user : models.User :=
        ⟨db.nextUserId, username, hash_password sha256 (pyStrip auth.password), tenant.id⟩
      .ok (⟨"Signup successful", tenant.name, username⟩,
           { db with users := db.users ++ [new_user],
                     nextUserId := db.nextUserId + 1 })

/-- POST /login (`login`): the success payload is just the message; the store
is threaded through unchanged (the handler performs no write). -/
def login (sha256 : String → String) (auth : AuthRequest) (db : Store) :
    Except HTTPException (String × Store) :=
  let username := pyStrip auth.username
  match db.tenants.find? (fun t => pyLower t.name == pyLower (pyStrip auth.tenant)) with
  | none => .error ⟨404, "Tenant not found"⟩
  | some tenant =>
    match db.users.find? (fun u =>
        pyLower u.username == pyLower username && u.tenant_id == tenant.id) with
    | none => .error ⟨401, "Invalid credentials"⟩
    | some user =>
      if user.password == hash_password sha256 (pyStrip auth.password) then
        .ok ("Login successful", db)
      else
        .error ⟨401, "Invalid credentials"⟩

/-- The batch insert loop of `set_questions`: one `models.Question` row per
payload entry, text trimmed, auto-increment ids, tagged with the tenant. -/
def mkQuestions (nextId tid : Nat) : List QuestionCreate → List models.Question
  | [] => []
  | q :: rest => ⟨nextId, pyStrip q.question, q.answer, tid⟩ :: mkQuestions (nextId + 1) tid rest

/-- POST /{tenant}/admin/set_questions (`set_questions`); `payload` is the
`"questions"` list of the request body. -/
def set_questions (tenant : String) (payload : List QuestionCreate) (db : Store) :
    Except HTTPException (SetQuestionsResult × Store) :=
  match db.tenants.find? (fun t => pyLower t.name == pyLower (pyStrip tenant)) with
  | none => .error ⟨404, "Tenant not found"⟩
  | some db_tenant =>
    let existing_questions := (db.questions.filter (fun q => q.tenant_id == db_tenant.id)).length
    if existing_questions > 0 then
      let questions := db.questions.filter (fun q => q.tenant_id == db_tenant.id)
      .ok (.existing "Questions already exist for this tenant"
             (questions.map (fun q => ⟨q.id, q.question, q.answer⟩)), db)
    else
      let new_questions := mkQuestions db.nextQuestionId db_tenant.id payload
      .ok (.inserted (toString payload.length ++ " questions set for " ++ db_tenant.name),
           { db with questions := db.questions ++ new_questions,
                     nextQuestionId := db.nextQuestionId + payload.length })

/-- GET /{tenant}/student/questions (`get_questions`). -/
def get_questions (tenant : String) (db : Store) :
    Except HTTPException (List StudentQuestionView) :=
  match db.tenants.find? (fun t => pyLower t.name == pyLower (pyStrip tenant)) with
  | none => .error ⟨404, "Tenant not found"⟩
  | some db_tenant =>
    .ok ((db.questions.filter (fun q => q.tenant_id == db_tenant.id)).map
          (fun q => ⟨q.id, q.question⟩))

/-- GET /{tenant}/admin/questions (`get_admin_questions`). -/
def get_admin_questions (tenant : String) (db : Store) :
    Except HTTPException (List AdminQuestionView) :=
  match db.tenants.find? (fun t => pyLower t.name == pyLower (pyStrip tenant)) with
  | none => .error ⟨404, "Tenant not found"⟩
  | some db_tenant =>
    .ok ((db.questions.filter (fun q => q.tenant_id == db_tenant.id)).map
          (fun q => ⟨q.id, q.question, q.answer⟩))

/-- POST /{tenant}/student/submit (`submit_quiz`). -/
def submit_quiz (tenant : String) (submission : QuizSubmission) (db : Store) :
    Except HTTPException (SubmitResponse × Store) :=
  match db.tenants.find? (fun t => pyLower t.name == pyLower (pyStrip tenant)) with
  | none => .error ⟨404, "Tenant not found"⟩
  | some db_tenant =>
    match db.users.find? (fun u =>
        pyLower u.username == pyLower (pyStrip submission.username)
          && u.tenant_id == db_tenant.id) with
    | none => .error ⟨404, "User not found"⟩
    | some user =>
      let questions := db.questions.filter (fun q => q.tenant_id == db_tenant.id)
      if questions.isEmpty then
        .error ⟨404, "No questions found for this tenant"⟩
      else
        let correct := questions.enum.countP (fun iq =>
          decide (iq.1 < submission.answers.length)
            && (iq.2.answer == submission.answers.getD iq.1 false))
        let new_submission : models.QuizSubmission :=
          ⟨db.nextSubmissionId, submission.answers, correct, user.id, db_tenant.id⟩
        .ok (⟨"You scored " ++ toString correct ++ "/" ++ toString questions.length,
              user.username, correct, questions.length⟩,
             { db with submissions := db.submissions ++ [new_submission],
                       nextSubmissionId := db.nextSubmissionId + 1 })

/-! ## Specification-side definitions -/

/-- Reference recursion for the score: walk the correct answers and the
submitted answers in lockstep, counting agreements; stops at the shorter. -/
def scoreAux : List Bool → List Bool → Nat
  | [], _ => 0
  | _ :: _, [] => 0
  | c :: cs, a :: as => (if c == a then 1 else 0) + scoreAux cs as

/-- The score as the spec words it: the number of indices `i` in
`0..correct.length-1` such that `i` is within bounds of `answers` and
`answers[i]` equals the `i`-th correct answer. -/
def scoreSpec (correct answers : List Bool) : Nat :=
  (List.range correct.length).countP (fun i =>
    decide (i < answers.length) && (answers.getD i false == correct.getD i false))

/-- Two stores whose question tables agree except possibly on the
`correct_answer` column (same tenants table, same ids, texts, tenant tags). -/
def QuestionsAnswerOnlyDiff (db1 db2 : Store) : Prop :=
  db1.tenants = db2.tenants ∧
  List.Forall₂ (fun q1 q2 : models.Question =>
    q1.id = q2.id ∧ q1.question = q2.question ∧ q1.tenant_id = q2.tenant_id)
    db1.questions db2.questions

/-! ## Concrete fixtures used by the witness theorems -/

def tenantAcme : models.Tenant := ⟨1, "Acme", "Acme Corp"⟩

def tenantBolt : models.Tenant := ⟨2, "Bolt", "Bolt Inc"⟩

def userAlice : models.User := ⟨1, "Alice", "pw", 1⟩

def qList : List models.Question :=
  [⟨1, "Q1", true, 1⟩, ⟨2, "Q2", false, 1⟩, ⟨3, "Q3", true, 1⟩]

/-- Fixture store: two tenants, one user in Acme, three questions in Acme. -/
def dbFix : Store :=
  ⟨[tenantAcme, tenantBolt], [userAlice], qList, [], 3, 2, 4, 1⟩

/-- Fixture store with no questions. -/
def dbNoQ : Store :=
  ⟨[tenantAcme, tenantBolt], [userAlice], [], [], 3, 2, 1, 1⟩

/-- Fixture store like `dbFix` but with every correct answer flipped. -/
def dbFlip : Store :=
  ⟨[tenantAcme, tenantBolt], [userAlice],
   [⟨1, "Q1", false, 1⟩, ⟨2, "Q2", true, 1⟩, ⟨3, "Q3", false, 1⟩], [], 3, 2, 4, 1⟩

/-- Empty fixture store. -/
def dbEmpty : Store :=
  ⟨[], [], [], [], 1, 1, 1, 1⟩

/-- Fixture store: two tenants, no users, no questions. -/
def dbNoU : Store :=
  ⟨[tenantAcme, tenantBolt], [], [], [], 3, 1, 1, 1⟩

/-- `dbEmpty` after creating tenant `" QuizCo "` (trimmed on storage). -/
def dbT1 : Store :=
  ⟨[⟨1, "QuizCo", "HQ"⟩], [], [], [], 2, 1, 1, 1⟩

/-- `dbNoU` after `signup` of `" Alice "` with password `" pw "` (digest
modelled by `id`) under tenant `"acme"`. -/
def dbNoU1 : Store :=
  ⟨[tenantAcme, tenantBolt], [⟨1, "Alice", "pw", 1⟩], [], [], 3, 2, 1, 1⟩

/-! ## Helper lemmas -/

theorem scoreAux_nil_right (cs : List Bool) : scoreAux cs [] = 0 := by
  cases cs <;> rfl

theorem getD_drop (l : List Bool) (k : Nat) :
    l.getD k false = (l.drop k).headD false := by
  rw [List.getD_eq_getElem?_getD, List.headD_eq_head?_getD, List.head?_drop]

theorem score_enumFrom (qs : List models.Question) (ans : List Bool) (k : Nat) :
    (qs.enumFrom k).countP (fun iq =>
      decide (iq.1 < ans.length) && (iq.2.answer == ans.getD iq.1 false))
    = scoreAux (qs.map models.Question.answer) (ans.drop k) := by
  induction qs generalizing k with
  | nil => simp [scoreAux]
  | cons q rest ih =>
    rw [List.enumFrom_cons, List.countP_cons, ih (k + 1)]
    rcases hdk : ans.drop k with _ | ⟨a, as⟩
    · have hk : ans.length ≤ k := List.drop_eq_nil_iff.mp hdk
      have h1 : ans.drop (k + 1) = [] := by
        rw [← List.tail_drop, hdk]; rfl
      rw [h1, List.map_cons]
      simp [scoreAux_nil_right, Nat.not_lt.mpr hk]
    · have hk : k < ans.length := by
        by_contra h
        rw [List.drop_eq_nil_iff.mpr (Nat.le_of_not_lt h)] at hdk
        exact absurd hdk (by simp)
      have ha : ans.getD k false = a := by
        rw [getD_drop, hdk]; rfl
      have has : ans.drop (k + 1) = as := by
        rw [← List.tail_drop, hdk]; rfl
      rw [has, ha, List.map_cons]
      show _ + _ = scoreAux (q.answer :: rest.map models.Question.answer) (a :: as)
      rw [scoreAux]
      simp [hk, Nat.add_comm]

theorem score_range' (ans : List Bool) (cs : List Bool) :
    ∀ (s : Nat) (correct : List Bool), correct.drop s = cs →
    (List.range' s cs.length).countP (fun i =>
      decide (i < ans.length) && (ans.getD i false == correct.getD i false))
    = scoreAux cs (ans.drop s) := by
  induction cs with
  | nil => intro s correct _; simp [scoreAux]
  | cons c cs' ih =>
    intro s correct hc
    have hc' : correct.drop (s + 1) = cs' := by
      rw [← List.tail_drop, hc]; rfl
    have hcg : correct.getD s false = c := by
      rw [getD_drop, hc]; rfl
    rw [show (c :: cs').length = cs'.length + 1 from rfl, List.range'_succ,
      List.countP_cons, ih (s + 1) correct hc']
    rcases hds : ans.drop s with _ | ⟨a, as⟩
    · have hk : ans.length ≤ s := List.drop_eq_nil_iff.mp hds
      have h1 : ans.drop (s + 1) = [] := by
        rw [← List.tail_drop, hds]; rfl
      rw [h1, scoreAux_nil_right, scoreAux_nil_right]
      simp [Nat.not_lt.mpr hk]
    · have hk : s < ans.length := by
        by_contra h
        rw [List.drop_eq_nil_iff.mpr (Nat.le_of_not_lt h)] at hds
        exact absurd hds (by simp)
      have ha : ans.getD s false = a := by
        rw [getD_drop, hds]; rfl
      have has : ans.drop (s + 1) = as := by
        rw [← List.tail_drop, hds]; rfl
      rw [has, ha, hcg, scoreAux]
      simp [hk, Nat.add_comm, Bool.beq_comm]

/-- The enumerate-based sum in `submit_quiz` equals the indexed count of the
specification. -/
theorem submit_score_spec (qs : List models.Question) (ans : List Bool) :
    qs.enum.countP (fun iq =>
      decide (iq.1 < ans.length) && (iq.2.answer == ans.getD iq.1 false))
    = scoreSpec (qs.map models.Question.answer) ans := by
  rw [List.enum_eq_enumFrom, score_enumFrom qs ans 0, scoreSpec, List.range_eq_range',
    score_range' ans (qs.map models.Question.answer) 0 (qs.map models.Question.answer)
      (List.drop_zero _)]


/-- Claim C1: for a tenant resolved by `submit_quiz` whose question set is
non-empty, the call succeeds and returns score = the number of indices
`i` in `0..n-1` with `i` within bounds of the answers list and
`answers[i]` equal to the `i`-th question's correct answer (extra answers
ignored, short answer lists scored over the given prefix only), and
total = n. -/
theorem submit_quiz_score_correct (tenant : String) (submission : QuizSubmission)
    (db : Store) (tn : models.Tenant) (u : models.User)
    (h1 : db.tenants.find? (fun t => pyLower t.name == pyLower (pyStrip tenant)) = some tn)
    (h2 : db.users.find? (fun v =>
        pyLower v.username == pyLower (pyStrip submission.username)
          && v.tenant_id == tn.id) = some u)
    (h3 : db.questions.filter (fun q => q.tenant_id == tn.id) ≠ []) :
    ∃ resp db2, submit_quiz tenant submission db = .ok (resp, db2) ∧
      resp.score = scoreSpec
        ((db.questions.filter (fun q => q.tenant_id == tn.id)).map models.Question.answer)
        submission.answers ∧
      resp.total = (db.questions.filter (fun q => q.tenant_id == tn.id)).length := by
  unfold submit_quiz
  simp only [h1, h2]
  rw [if_neg (by simp [h3])]
  rw [submit_score_spec]
  exact ⟨_, _, rfl, rfl, rfl⟩

/-- Witness for C1 on the fixture store: submitting `[true, false, false]`
against correct answers `[true, false, true]` succeeds with score 2, total 3. -/
theorem submit_quiz_score_correct_witness :
    (∃ resp db2,
      submit_quiz "acme" ⟨"ALICE", [true, false, false]⟩ dbFix = .ok (resp, db2) ∧
      resp.score = scoreSpec
        ((dbFix.questions.filter (fun q => q.tenant_id == tenantAcme.id)).map
          models.Question.answer) [true, false, false] ∧
      resp.total = (dbFix.questions.filter (fun q => q.tenant_id == tenantAcme.id)).length) ∧
    scoreSpec
        ((dbFix.questions.filter (fun q => q.tenant_id == tenantAcme.id)).map
          models.Question.answer) [true, false, false] = 2 :=
  ⟨submit_quiz_score_correct "acme" ⟨"ALICE", [true, false, false]⟩ dbFix tenantAcme userAlice
    (by decide) (by decide) (by decide), by decide⟩

/-- Claim C6: on a tenant whose question set is empty, `submit_quiz` (with an
existing user) fails with 404 and returns no updated store, so no Submission
record is created. -/
theorem submit_quiz_empty_questions_not_found (tenant : String)
    (submission : QuizSubmission) (db : Store) (tn : models.Tenant) (u : models.User)
    (h1 : db.tenants.find? (fun t => pyLower t.name == pyLower (pyStrip tenant)) = some tn)
    (h2 : db.users.find? (fun v =>
        pyLower v.username == pyLower (pyStrip submission.username)
          && v.tenant_id == tn.id) = some u)
    (h3 : db.questions.filter (fun q => q.tenant_id == tn.id) = []) :
    submit_quiz tenant submission db
      = .error ⟨404, "No questions found for this tenant"⟩ := by
  unfold submit_quiz
  simp only [h1, h2]
  rw [if_pos (by simp [h3])]

/-- Witness for C6: submitting against the fixture store with no questions
yields the 404 error. -/
theorem submit_quiz_empty_questions_not_found_witness :
    submit_quiz "acme" ⟨"alice", [true]⟩ dbNoQ
      = .error ⟨404, "No questions found for this tenant"⟩ :=
  submit_quiz_empty_questions_not_found "acme" ⟨"alice", [true]⟩ dbNoQ tenantAcme userAlice
    (by decide) (by decide) (by decide)

/-- Claim C10: a successful `submit_quiz` reports the stored (trimmed,
case-preserved) username of the user resolved by trimmed, case-insensitive
lookup within the tenant — not the string supplied in the submission. -/
theorem submit_quiz_returns_stored_username (tenant : String)
    (submission : QuizSubmission) (db : Store) (tn : models.Tenant) (u : models.User)
    (h1 : db.tenants.find? (fun t => pyLower t.name == pyLower (pyStrip tenant)) = some tn)
    (h2 : db.users.find? (fun v =>
        pyLower v.username == pyLower (pyStrip submission.username)
          && v.tenant_id == tn.id) = some u)
    (h3 : db.questions.filter (fun q => q.tenant_id == tn.id) ≠ []) :
    ∃ resp db2, submit_quiz tenant submission db = .ok (resp, db2) ∧
      resp.username = u.username := by
  unfold submit_quiz
  simp only [h1, h2]
  rw [if_neg (by simp [h3])]
  exact ⟨_, _, rfl, rfl⟩

/-- Witness for C10: submitting as `"ALICE"` reports the stored username
`"Alice"`, not the submitted string. -/
theorem submit_quiz_returns_stored_username_witness :
    (∃ resp db2, submit_quiz "acme" ⟨"ALICE", [true]⟩ dbFix = .ok (resp, db2) ∧
      resp.username = userAlice.username) ∧ userAlice.username = "Alice" :=
  ⟨submit_quiz_returns_stored_username "acme" ⟨"ALICE", [true]⟩ dbFix tenantAcme userAlice
    (by decide) (by decide) (by decide), by decide⟩

theorem mkQuestions_map_question (tid : Nat) (ps : List QuestionCreate) :
    ∀ n, (mkQuestions n tid ps).map models.Question.question
      = ps.map (fun q => pyStrip q.question) := by
  induction ps with
  | nil => intro n; rfl
  | cons q rest ih => intro n; simp [mkQuestions, ih (n + 1)]

theorem mkQuestions_map_answer (tid : Nat) (ps : List QuestionCreate) :
    ∀ n, (mkQuestions n tid ps).map models.Question.answer
      = ps.map QuestionCreate.answer := by
  induction ps with
  | nil => intro n; rfl
  | cons q rest ih => intro n; simp [mkQuestions, ih (n + 1)]

theorem mkQuestions_tenant (tid : Nat) (ps : List QuestionCreate) :
    ∀ n, ∀ q ∈ mkQuestions n tid ps, q.tenant_id = tid := by
  induction ps with
  | nil => intro n q hq; cases hq
  | cons p rest ih =>
    intro n q hq
    rcases hq with _ | ⟨_, hq⟩
    · rfl
    · exact ih (n + 1) q hq

theorem mkQuestions_filter_self (n tid : Nat) (ps : List QuestionCreate) :
    (mkQuestions n tid ps).filter (fun q => q.tenant_id == tid)
      = mkQuestions n tid ps := by
  apply List.filter_eq_self.mpr
  intro q hq
  simp [mkQuestions_tenant tid ps n q hq]

/-- Claim C2: `set_questions` is set-once.  If the tenant already has at
least one question, any call returns the existing questions (id, text,
correct answer) with the store unchanged and no error; if the tenant has
zero questions, the call inserts all given questions in order, with trimmed
text, tagged with the tenant's id. -/
theorem set_questions_set_once (tenant : String) (payload : List QuestionCreate)
    (db : Store) (tn : models.Tenant)
    (h : db.tenants.find? (fun t => pyLower t.name == pyLower (pyStrip tenant)) = some tn) :
    (db.questions.filter (fun q => q.tenant_id == tn.id) ≠ [] →
      set_questions tenant payload db
        = .ok (.existing "Questions already exist for this tenant"
            ((db.questions.filter (fun q => q.tenant_id == tn.id)).map
              (fun q => ⟨q.id, q.question, q.answer⟩)), db)) ∧
    (db.questions.filter (fun q => q.tenant_id == tn.id) = [] →
      ∃ db2, set_questions tenant payload db
          = .ok (.inserted (toString payload.length ++ " questions set for " ++ tn.name), db2) ∧
        db2.questions = db.questions ++ mkQuestions db.nextQuestionId tn.id payload ∧
        db2.questions.filter (fun q => q.tenant_id == tn.id)
          = mkQuestions db.nextQuestionId tn.id payload ∧
        (mkQuestions db.nextQuestionId tn.id payload).map models.Question.question
          = payload.map (fun q => pyStrip q.question) ∧
        (mkQuestions db.nextQuestionId tn.id payload).map models.Question.answer
          = payload.map QuestionCreate.answer) := by
  constructor
  · intro hne
    unfold set_questions
    simp only [h]
    rw [if_pos (by simp [List.length_pos, hne])]
  · intro he
    unfold set_questions
    simp only [h]
    rw [if_neg (by simp [he])]
    refine ⟨_, rfl, rfl, ?_, mkQuestions_map_question tn.id payload db.nextQuestionId,
      mkQuestions_map_answer tn.id payload db.nextQuestionId⟩
    simp [List.filter_append, he, mkQuestions_filter_self]

/-- Witness for C2: on the populated fixture a different question list is
ignored and the original three questions come back with the store unchanged;
on the empty fixture the same call inserts the trimmed questions. -/
theorem set_questions_set_once_witness :
    (set_questions "acme" [⟨"New", false⟩] dbFix
      = .ok (.existing "Questions already exist for this tenant"
          ((dbFix.questions.filter (fun q => q.tenant_id == tenantAcme.id)).map
            (fun q => ⟨q.id, q.question, q.answer⟩)), dbFix)) ∧
    (∃ db2, set_questions "acme" [⟨" New ", false⟩] dbNoQ
        = .ok (.inserted (toString ([(⟨" New ", false⟩ : QuestionCreate)]).length
            ++ " questions set for " ++ tenantAcme.name), db2) ∧
      db2.questions = dbNoQ.questions
          ++ mkQuestions dbNoQ.nextQuestionId tenantAcme.id [⟨" New ", false⟩] ∧
      db2.questions.filter (fun q => q.tenant_id == tenantAcme.id)
        = mkQuestions dbNoQ.nextQuestionId tenantAcme.id [⟨" New ", false⟩] ∧
      (mkQuestions dbNoQ.nextQuestionId tenantAcme.id [⟨" New ", false⟩]).map
          models.Question.question
        = ([(⟨" New ", false⟩ : QuestionCreate)]).map (fun q => pyStrip q.question) ∧
      (mkQuestions dbNoQ.nextQuestionId tenantAcme.id [⟨" New ", false⟩]).map
          models.Question.answer
        = ([(⟨" New ", false⟩ : QuestionCreate)]).map QuestionCreate.answer) :=
  ⟨(set_questions_set_once "acme" [⟨"New", false⟩] dbFix tenantAcme (by decide)).1 (by decide),
   (set_questions_set_once "acme" [⟨" New ", false⟩] dbNoQ tenantAcme (by decide)).2 (by decide)⟩

/-- Claim C9: on a tenant with zero questions, `set_questions` with an empty
list succeeds reporting 0 questions set, leaves the store unchanged (the
bank stays empty, not frozen), and a later call with a non-empty list still
populates the bank. -/
theorem set_questions_empty_payload_no_freeze (tenant : String) (db : Store)
    (tn : models.Tenant)
    (h : db.tenants.find? (fun t => pyLower t.name == pyLower (pyStrip tenant)) = some tn)
    (he : db.questions.filter (fun q => q.tenant_id == tn.id) = []) :
    set_questions tenant [] db
      = .ok (.inserted ("0 questions set for " ++ tn.name), db) ∧
    ∀ payload : List QuestionCreate, payload ≠ [] →
      ∃ msg db2, set_questions tenant payload db = .ok (.inserted msg, db2) ∧
        db2.questions.filter (fun q => q.tenant_id == tn.id)
          = mkQuestions db.nextQuestionId tn.id payload ∧
        mkQuestions db.nextQuestionId tn.id payload ≠ [] := by
  constructor
  · unfold set_questions
    simp only [h]
    rw [if_neg (by simp [he])]
    simp only [mkQuestions, List.append_nil, List.length_nil, Nat.add_zero]
    rfl
  · intro payload hp
    unfold set_questions
    simp only [h]
    rw [if_neg (by simp [he])]
    refine ⟨_, _, rfl, ?_, ?_⟩
    · simp [List.filter_append, he, mkQuestions_filter_self]
    · cases payload with
      | nil => exact absurd rfl hp
      | cons p rest => simp [mkQuestions]

/-- Witness for C9 on the question-free fixture store. -/
theorem set_questions_empty_payload_no_freeze_witness :
    (set_questions "acme" [] dbNoQ
      = .ok (.inserted ("0 questions set for " ++ tenantAcme.name), dbNoQ)) ∧
    (∃ msg db2, set_questions "acme" [⟨"Q9", true⟩] dbNoQ = .ok (.inserted msg, db2) ∧
      db2.questions.filter (fun q => q.tenant_id == tenantAcme.id)
        = mkQuestions dbNoQ.nextQuestionId tenantAcme.id [⟨"Q9", true⟩] ∧
      mkQuestions dbNoQ.nextQuestionId tenantAcme.id [⟨"Q9", true⟩] ≠ []) :=
  ⟨(set_questions_empty_payload_no_freeze "acme" dbNoQ tenantAcme
      (by decide) (by decide)).1,
   (set_questions_empty_payload_no_freeze "acme" dbNoQ tenantAcme
      (by decide) (by decide)).2 [⟨"Q9", true⟩] (by decide)⟩

/-- Inversion of a successful `signup`: the tenant resolved, the normalized
username was free in that tenant, and the new user row carries the trimmed
username and the digest of the stripped password. -/
theorem signup_ok_elim (sha256 : String → String) (a : AuthRequest) (db : Store)
    (r : SignupResponse) (db' : Store) (h : signup sha256 a db = .ok (r, db')) :
    ∃ tn, db.tenants.find? (fun t => pyLower t.name == pyLower (pyStrip a.tenant)) = some tn ∧
      db.users.find? (fun u =>
        pyLower u.username == pyLower (pyStrip a.username) && u.tenant_id == tn.id) = none ∧
      r = ⟨"Signup successful", tn.name, pyStrip a.username⟩ ∧
      db' = { db with
        users := db.users ++
          [⟨db.nextUserId, pyStrip a.username, hash_password sha256 (pyStrip a.password), tn.id⟩],
        nextUserId := db.nextUserId + 1 } := by
  unfold signup at h
  rcases hft : db.tenants.find? (fun t => pyLower t.name == pyLower (pyStrip a.tenant)) with
    _ | tn
  · simp only [hft] at h
    exact Except.noConfusion h
  · simp only [hft] at h
    rcases hfu : db.users.find? (fun u =>
        pyLower u.username == pyLower (pyStrip a.username) && u.tenant_id == tn.id) with
      _ | u0
    · simp only [hfu, Except.ok.injEq, Prod.mk.injEq] at h
      exact ⟨tn, hft, hfu, h.1.symm, h.2.symm⟩
    · simp only [hfu] at h
      exact Except.noConfusion h

/-- Inversion of a successful `create_tenant`: no tenant with the normalized
name existed, and the new row stores the trimmed, case-preserved name. -/
theorem create_tenant_ok_elim (tc : TenantCreate) (db : Store)
    (r : CreateTenantResponse) (db' : Store) (h : create_tenant tc db = .ok (r, db')) :
    db.tenants.find? (fun t => pyLower t.name == pyLower (pyStrip tc.name)) = none ∧
    r = ⟨"Tenant created successfully", db.nextTenantId, pyStrip tc.name⟩ ∧
    db' = { db with
      tenants := db.tenants ++ [⟨db.nextTenantId, pyStrip tc.name, pyStrip tc.display_name⟩],
      nextTenantId := db.nextTenantId + 1 } := by
  unfold create_tenant at h
  rcases hft : db.tenants.find? (fun t => pyLower t.name == pyLower (pyStrip tc.name)) with
    _ | t0
  · simp only [hft, Except.ok.injEq, Prod.mk.injEq] at h
    exact ⟨hft, h.1.symm, h.2.symm⟩
  · simp only [hft] at h
    exact Except.noConfusion h

/-- Claim C4: after a successful `create_tenant`, creating a tenant whose
name differs only by case and/or surrounding whitespace fails with 400, and
the first call stored the trimmed, case-preserved name and returned the new
id and stored name. -/
theorem create_tenant_conflict_case_whitespace (n1 n2 : TenantCreate)
    (db db' : Store) (r1 : CreateTenantResponse)
    (hsame : pyLower (pyStrip n2.name) = pyLower (pyStrip n1.name))
    (h : create_tenant n1 db = .ok (r1, db')) :
    create_tenant n2 db' = .error ⟨400, "Tenant " ++ n2.name ++ " already exists"⟩ ∧
    r1.tenant_id = db.nextTenantId ∧
    r1.name = pyStrip n1.name ∧
    db'.tenants = db.tenants
      ++ [⟨db.nextTenantId, pyStrip n1.name, pyStrip n1.display_name⟩] := by
  obtain ⟨hnone, hr, hdb⟩ := create_tenant_ok_elim n1 db r1 db' h
  subst hdb
  subst hr
  refine ⟨?_, rfl, rfl, rfl⟩
  unfold create_tenant
  simp only [hsame, List.find?_append, hnone]
  simp

/-- Witness for C4: `" QuizCo "` then `"quizco"` conflict. -/
theorem create_tenant_conflict_case_whitespace_witness :
    create_tenant ⟨"quizco", "X"⟩ dbT1
        = .error ⟨400, "Tenant " ++ "quizco" ++ " already exists"⟩ ∧
    (⟨"Tenant created successfully", 1, "QuizCo"⟩ : CreateTenantResponse).tenant_id
        = dbEmpty.nextTenantId ∧
    (⟨"Tenant created successfully", 1, "QuizCo"⟩ : CreateTenantResponse).name
        = pyStrip " QuizCo " ∧
    dbT1.tenants = dbEmpty.tenants
      ++ [⟨dbEmpty.nextTenantId, pyStrip " QuizCo ", pyStrip " HQ "⟩] :=
  create_tenant_conflict_case_whitespace ⟨" QuizCo ", " HQ "⟩ ⟨"quizco", "X"⟩
    dbEmpty dbT1 ⟨"Tenant created successfully", 1, "QuizCo"⟩ (by decide) rfl

/-- Claim C3: after a successful `signup`, a second signup with the same
normalized username under the same tenant fails with 400, while a signup
with the same normalized username under a different existing tenant (where
that username is still free) succeeds and stores the trimmed,
case-preserved username. -/
theorem signup_username_unique_per_tenant (sha256 : String → String)
    (a1 a2 a3 : AuthRequest) (db db' : Store) (r1 : SignupResponse)
    (t1 t3 : models.Tenant)
    (h : signup sha256 a1 db = .ok (r1, db'))
    (h1 : db.tenants.find? (fun t => pyLower t.name == pyLower (pyStrip a1.tenant)) = some t1)
    (h2t : pyLower (pyStrip a2.tenant) = pyLower (pyStrip a1.tenant))
    (h2u : pyLower (pyStrip a2.username) = pyLower (pyStrip a1.username))
    (h3t : db.tenants.find? (fun t => pyLower t.name == pyLower (pyStrip a3.tenant)) = some t3)
    (h3ne : t3.id ≠ t1.id)
    (h3u : pyLower (pyStrip a3.username) = pyLower (pyStrip a1.username))
    (h3f : db.users.find? (fun u =>
        pyLower u.username == pyLower (pyStrip a3.username) && u.tenant_id == t3.id) = none) :
    signup sha256 a2 db' = .error ⟨400, "Username already exists in this tenant"⟩ ∧
    ∃ db3, signup sha256 a3 db'
        = .ok (⟨"Signup successful", t3.name, pyStrip a3.username⟩, db3) ∧
      db3.users = db'.users ++
        [⟨db'.nextUserId, pyStrip a3.username,
          hash_password sha256 (pyStrip a3.password), t3.id⟩] := by
  obtain ⟨tn, hft, hfu, hr, hdb⟩ := signup_ok_elim sha256 a1 db r1 db' h
  have htn : tn = t1 := by
    rw [hft] at h1
    exact Option.some.inj h1
  subst htn
  subst hdb
  constructor
  · unfold signup
    simp only [h2t, h2u, hft]
    rw [List.find?_append, hfu]
    simp
  · unfold signup
    simp only [h3t]
    have hne := beq_eq_false_iff_ne.mpr (Ne.symm h3ne)
    rw [List.find?_append, h3f, List.find?_cons_of_neg _ (by simp [hne]), List.find?_nil]
    exact ⟨_, rfl, rfl⟩

/-- Witness for C3: after `" Alice "` signs up under `"acme"`, `"ALICE"`
under `" ACME "` conflicts while `"alice"` under `"bolt"` succeeds. -/
theorem signup_username_unique_per_tenant_witness :
    signup id ⟨"ALICE", "x", " ACME "⟩ dbNoU1
        = .error ⟨400, "Username already exists in this tenant"⟩ ∧
    ∃ db3, signup id ⟨"alice", "y", "bolt"⟩ dbNoU1
        = .ok (⟨"Signup successful", tenantBolt.name, pyStrip "alice"⟩, db3) ∧
      db3.users = dbNoU1.users ++
        [⟨dbNoU1.nextUserId, pyStrip "alice", hash_password id (pyStrip "y"),
          tenantBolt.id⟩] :=
  signup_username_unique_per_tenant id ⟨" Alice ", "pw", "acme"⟩ ⟨"ALICE", "x", " ACME "⟩
    ⟨"alice", "y", "bolt"⟩ dbNoU dbNoU1 ⟨"Signup successful", "Acme", "Alice"⟩
    tenantAcme tenantBolt rfl (by decide) (by decide) (by decide) (by decide)
    (by decide) (by decide) (by decide)

/-- Claim C5: `login` fails 404 when no tenant matches the normalized name,
fails 401 when the user is absent or the password digest differs, and after
a successful signup the same credentials log in successfully with no store
change (no session or token is created). -/
theorem login_paths (sha256 : String → String) (a1 a2 a3 a4 : AuthRequest)
    (db1 db2 db3 db4 db4' : Store) (t2 t3 : models.Tenant) (u3 : models.User)
    (r4 : SignupResponse)
    (h1 : db1.tenants.find? (fun t => pyLower t.name == pyLower (pyStrip a1.tenant)) = none)
    (h2t : db2.tenants.find? (fun t => pyLower t.name == pyLower (pyStrip a2.tenant)) = some t2)
    (h2u : db2.users.find? (fun u =>
        pyLower u.username == pyLower (pyStrip a2.username) && u.tenant_id == t2.id) = none)
    (h3t : db3.tenants.find? (fun t => pyLower t.name == pyLower (pyStrip a3.tenant)) = some t3)
    (h3u : db3.users.find? (fun u =>
        pyLower u.username == pyLower (pyStrip a3.username) && u.tenant_id == t3.id) = some u3)
    (h3p : u3.password ≠ hash_password sha256 (pyStrip a3.password))
    (h4 : signup sha256 a4 db4 = .ok (r4, db4')) :
    login sha256 a1 db1 = .error ⟨404, "Tenant not found"⟩ ∧
    login sha256 a2 db2 = .error ⟨401, "Invalid credentials"⟩ ∧
    login sha256 a3 db3 = .error ⟨401, "Invalid credentials"⟩ ∧
    login sha256 a4 db4' = .ok ("Login successful", db4') := by
  obtain ⟨tn, hft, hfu, hr, hdb⟩ := signup_ok_elim sha256 a4 db4 r4 db4' h4
  refine ⟨?_, ?_, ?_, ?_⟩
  · unfold login
    simp only [h1]
  · unfold login
    simp only [h2t, h2u]
  · unfold login
    simp only [h3t, h3u]
    rw [if_neg (by simp [h3p])]
  · subst hdb
    unfold login
    simp only [hft]
    rw [List.find?_append, hfu, List.find?_cons_of_pos _ (by simp)]
    simp [hash_password]

/-- Witness for C5: the four login outcomes on concrete stores. -/
theorem login_paths_witness :
    login id ⟨"x", "y", "ghost"⟩ dbEmpty = .error ⟨404, "Tenant not found"⟩ ∧
    login id ⟨"bob", "pw", "acme"⟩ dbNoU = .error ⟨401, "Invalid credentials"⟩ ∧
    login id ⟨"alice", "wrong", "acme"⟩ dbFix = .error ⟨401, "Invalid credentials"⟩ ∧
    login id ⟨" Alice ", " pw ", "acme"⟩ dbNoU1 = .ok ("Login successful", dbNoU1) :=
  login_paths id ⟨"x", "y", "ghost"⟩ ⟨"bob", "pw", "acme"⟩ ⟨"alice", "wrong", "acme"⟩
    ⟨" Alice ", " pw ", "acme"⟩ dbEmpty dbNoU dbFix dbNoU dbNoU1
    tenantAcme tenantAcme userAlice ⟨"Signup successful", "Acme", "Alice"⟩
    (by decide) (by decide) (by decide) (by decide) (by decide) (by decide) rfl

/-- Claim C8: passwords are stripped before digesting at both signup and
login, so after signup with password `p`, login succeeds for any password
with the same stripped form and fails 401 for any password whose stripped
form digests differently. -/
theorem login_password_strip_relation (sha256 : String → String)
    (a1 a2 a3 : AuthRequest) (db db' : Store) (r1 : SignupResponse)
    (h : signup sha256 a1 db = .ok (r1, db'))
    (h2t : a2.tenant = a1.tenant) (h2u : a2.username = a1.username)
    (h2p : pyStrip a2.password = pyStrip a1.password)
    (h3t : a3.tenant = a1.tenant) (h3u : a3.username = a1.username)
    (h3p : sha256 (pyStrip a3.password) ≠ sha256 (pyStrip a1.password)) :
    login sha256 a2 db' = .ok ("Login successful", db') ∧
    login sha256 a3 db' = .error ⟨401, "Invalid credentials"⟩ := by
  obtain ⟨tn, hft, hfu, hr, hdb⟩ := signup_ok_elim sha256 a1 db r1 db' h
  subst hdb
  constructor
  · unfold login
    simp only [h2t, h2u, h2p, hft]
    rw [List.find?_append, hfu, List.find?_cons_of_pos _ (by simp)]
    simp [hash_password]
  · unfold login
    simp only [h3t, h3u, hft]
    rw [List.find?_append, hfu, List.find?_cons_of_pos _ (by simp)]
    simp only [Option.none_or]
    rw [if_neg (by simp [hash_password, Ne.symm h3p])]

/-- Witness for C8: after signup with `" pw "`, password `"pw "` (same
stripped form) logs in, while `"wrong"` is rejected. -/
theorem login_password_strip_relation_witness :
    login id ⟨" Alice ", "pw ", "acme"⟩ dbNoU1 = .ok ("Login successful", dbNoU1) ∧
    login id ⟨" Alice ", "wrong", "acme"⟩ dbNoU1
      = .error ⟨401, "Invalid credentials"⟩ :=
  login_password_strip_relation id ⟨" Alice ", " pw ", "acme"⟩
    ⟨" Alice ", "pw ", "acme"⟩ ⟨" Alice ", "wrong", "acme"⟩ dbNoU dbNoU1
    ⟨"Signup successful", "Acme", "Alice"⟩ rfl rfl rfl (by decide) rfl rfl (by decide)

/-- The student projection of a tenant's questions is unchanged when only
the `answer` column differs. -/
theorem filter_map_student_eq (tid : Nat) {l1 l2 : List models.Question}
    (h : List.Forall₂ (fun q1 q2 : models.Question =>
      q1.id = q2.id ∧ q1.question = q2.question ∧ q1.tenant_id = q2.tenant_id) l1 l2) :
    (l1.filter (fun q => q.tenant_id == tid)).map
        (fun q => (⟨q.id, q.question⟩ : StudentQuestionView))
      = (l2.filter (fun q => q.tenant_id == tid)).map
        (fun q => (⟨q.id, q.question⟩ : StudentQuestionView)) := by
  induction h with
  | nil => rfl
  | @cons q1 q2 m1 m2 hq hrest ih =>
    obtain ⟨hid, hquestion, htid⟩ := hq
    simp only [List.filter_cons, htid]
    by_cases hc : (q2.tenant_id == tid) = true
    · simp [hc, hid, hquestion, ih]
    · simp [hc, ih]

/-- Claim C7: the student question view depends only on ids, texts and
tenant tags — two stores that differ only in the questions' correct answers
produce identical `get_questions` output — while `get_admin_questions`
returns every question together with its correct answer. -/
theorem get_questions_hides_answers (tenant : String) (db1 db2 : Store)
    (tn : models.Tenant)
    (h : QuestionsAnswerOnlyDiff db1 db2)
    (hfind : db1.tenants.find? (fun t => pyLower t.name == pyLower (pyStrip tenant)) = some tn) :
    get_questions tenant db1 = get_questions tenant db2 ∧
    get_admin_questions tenant db1
      = .ok ((db1.questions.filter (fun q => q.tenant_id == tn.id)).map
          (fun q => ⟨q.id, q.question, q.answer⟩)) := by
  obtain ⟨ht, hq⟩ := h
  constructor
  · unfold get_questions
    rw [← ht]
    cases hf : db1.tenants.find? (fun t => pyLower t.name == pyLower (pyStrip tenant)) with
    | none => rfl
    | some tn2 => exact congrArg Except.ok (filter_map_student_eq tn2.id hq)
  · unfold get_admin_questions
    simp only [hfind]

/-- Witness for C7: `dbFix` and `dbFlip` differ exactly in every correct
answer, yet the student view coincides; the admin view carries the answers. -/
theorem get_questions_hides_answers_witness :
    get_questions "acme" dbFix = get_questions "acme" dbFlip ∧
    get_admin_questions "acme" dbFix
      = .ok ((dbFix.questions.filter (fun q => q.tenant_id == tenantAcme.id)).map
          (fun q => ⟨q.id, q.question, q.answer⟩)) :=
  get_questions_hides_answers "acme" dbFix dbFlip tenantAcme
    ⟨rfl, .cons ⟨rfl, rfl, rfl⟩ (.cons ⟨rfl, rfl, rfl⟩ (.cons ⟨rfl, rfl, rfl⟩ .nil))⟩
    (by decide)
